import Mathlib

/- Verification development for the Balti-AI voice translation server
   (src/main.py).  The embedding models:
   * the JSON values produced by Python's json.loads, together with an
     executable parser over character lists;
   * Python string primitives str.replace and str.strip used by the
     response fence-stripping step;
   * GeminiService.translate (src/main.py lines 59-107) as a function of
     an environment describing the outcomes of the external calls
     (wav.write, genai.upload_file, generate_content, cleanup), returning
     the result together with the trace of attempted external steps;
   * AudioRecorder (lines 109-137) as an explicit state machine;
   * the /api/record route handler handle_record (lines 161-176). -/

namespace BaltiAI

/-- Audio amplitude scalar.  The recorder and the route handler never
inspect sample values, only move buffers around, so an opaque-in-spirit
integer scalar stands for one float sample. -/
abbrev Sample := Int

/-- JSON values as produced by Python's json.loads.  Objects keep
insertion order of keys, as Python dicts do. -/
inductive Json where
  | null
  | bool (b : Bool)
  | num (n : Int)
  | str (s : String)
  | arr (items : List Json)
  | obj (members : List (String × Json))

/-- JSON whitespace accepted between tokens by json.loads. -/
def isJsonWs (c : Char) : Bool :=
  c = ' ' || c = '\t' || c = '\n' || c = '\r'

/-- Whitespace stripped by Python's str.strip(). -/
def isPyWs (c : Char) : Bool :=
  c = ' ' || c = '\t' || c = '\n' || c = '\r' || c = '\x0b' || c = '\x0c'

/-- Skip JSON whitespace. -/
def skipWs : List Char → List Char
  | c :: cs => if isJsonWs c then skipWs cs else c :: cs
  | [] => []

/-- Value of one hexadecimal digit, if any. -/
def hexVal (c : Char) : Option Nat :=
  if '0' ≤ c ∧ c ≤ '9' then some (c.toNat - 48)
  else if 'a' ≤ c ∧ c ≤ 'f' then some (c.toNat - 87)
  else if 'A' ≤ c ∧ c ≤ 'F' then some (c.toNat - 55)
  else none

/-- Parse the body of a JSON string literal (after the opening quote),
returning the decoded characters and the rest of the input.  Handles the
escape sequences json.loads accepts; fuel bounds recursion. -/
def parseStringChars : Nat → List Char → Option (List Char × List Char)
  | 0, _ => none
  | _ + 1, [] => none
  | fuel + 1, c :: cs =>
    if c = '"' then some ([], cs)
    else if c = '\\' then
      match cs with
      | [] => none
      | e :: cs' =>
        let dec : Option (Char × List Char) :=
          if e = '"' then some ('"', cs')
          else if e = '\\' then some ('\\', cs')
          else if e = '/' then some ('/', cs')
          else if e = 'n' then some ('\n', cs')
          else if e = 't' then some ('\t', cs')
          else if e = 'r' then some ('\r', cs')
          else if e = 'b' then some ('\x08', cs')
          else if e = 'f' then some ('\x0c', cs')
          else if e = 'u' then
            match cs' with
            | h1 :: h2 :: h3 :: h4 :: cs'' =>
              match hexVal h1, hexVal h2, hexVal h3, hexVal h4 with
              | some a, some b, some c', some d =>
                some (Char.ofNat (((a * 16 + b) * 16 + c') * 16 + d), cs'')
              | _, _, _, _ => none
            | _ => none
          else none
        match dec with
        | some (ch, rest) =>
          match parseStringChars fuel rest with
          | some (s, r) => some (ch :: s, r)
          | none => none
        | none => none
    else if c.toNat < 32 then none
    else
      match parseStringChars fuel cs with
      | some (s, r) => some (c :: s, r)
      | none => none

/-- Parse a JSON integer literal.  json.loads also accepts fractions and
exponents (Python floats); those are unused by this program's replies and
the model rejects them rather than approximating them. -/
def parseNum (cs : List Char) : Option (Json × List Char) :=
  let p := match cs with
    | '-' :: r => (true, r)
    | _ => (false, cs)
  let digits := p.2.takeWhile Char.isDigit
  let rest := p.2.dropWhile Char.isDigit
  if digits = [] then none
  else
    match rest with
    | '.' :: _ => none
    | 'e' :: _ => none
    | 'E' :: _ => none
    | _ =>
      let n : Nat := digits.foldl (fun a c => a * 10 + (c.toNat - 48)) 0
      some (Json.num (if p.1 then -(n : Int) else (n : Int)), rest)

/-- Insert a key into an object under Python dict semantics: a repeated
key keeps its original position and takes the new value. -/
def insertKey (ms : List (String × Json)) (k : String) (v : Json) :
    List (String × Json) :=
  match ms with
  | [] => [(k, v)]
  | (k', v') :: rest =>
    if k' = k then (k', v) :: rest else (k', v') :: insertKey rest k v

mutual

/-- Parse one JSON value, returning it and the remaining input. -/
def parseVal : Nat → List Char → Option (Json × List Char)
  | 0, _ => none
  | fuel + 1, cs =>
    match skipWs cs with
    | [] => none
    | c :: rest =>
      if c = '"' then
        match parseStringChars (fuel + 1) rest with
        | some (s, r) => some (Json.str (String.mk s), r)
        | none => none
      else if c = '\x7b' then
        match skipWs rest with
        | '\x7d' :: r => some (Json.obj [], r)
        | _ => parseMembers fuel rest []
      else if c = '[' then
        match skipWs rest with
        | ']' :: r => some (Json.arr [], r)
        | _ => parseItems fuel rest []
      else if c = 't' then
        match rest with
        | 'r' :: 'u' :: 'e' :: r => some (Json.bool true, r)
        | _ => none
      else if c = 'f' then
        match rest with
        | 'a' :: 'l' :: 's' :: 'e' :: r => some (Json.bool false, r)
        | _ => none
      else if c = 'n' then
        match rest with
        | 'u' :: 'l' :: 'l' :: r => some (Json.null, r)
        | _ => none
      else if c = '-' ∨ c.isDigit then parseNum (c :: rest)
      else none

/-- Parse the members of a JSON object after its opening brace. -/
def parseMembers : Nat → List Char → List (String × Json) →
    Option (Json × List Char)
  | 0, _, _ => none
  | fuel + 1, cs, acc =>
    match skipWs cs with
    | '"' :: rest =>
      match parseStringChars (fuel + 1) rest with
      | some (k, r1) =>
        match skipWs r1 with
        | ':' :: r2 =>
          match parseVal fuel r2 with
          | some (v, r3) =>
            let acc' := insertKey acc (String.mk k) v
            match skipWs r3 with
            | ',' :: r4 => parseMembers fuel r4 acc'
            | '\x7d' :: r4 => some (Json.obj acc', r4)
            | _ => none
          | none => none
        | _ => none
      | none => none
    | _ => none

/-- Parse the items of a JSON array after its opening bracket. -/
def parseItems : Nat → List Char → List Json → Option (Json × List Char)
  | 0, _, _ => none
  | fuel + 1, cs, acc =>
    match parseVal fuel cs with
    | some (v, r1) =>
      let acc' := acc ++ [v]
      match skipWs r1 with
      | ',' :: r2 => parseItems fuel r2 acc'
      | ']' :: r2 => some (Json.arr acc', r2)
      | _ => none
    | none => none

end

/-- Model of Python's json.loads on a character list: parse one value and
require only whitespace to remain; otherwise fail (json.loads raises, and
that exception is what the caller catches). -/
def parseJson (cs : List Char) : Option Json :=
  match parseVal (cs.length + 1) cs with
  | some (v, rest) => if skipWs rest = [] then some v else none
  | none => none

/-- Python str.replace(pat, repl) on character lists: leftmost,
non-overlapping, scanning resumes after the replacement.  Fuel bounds
recursion; pyReplace supplies enough for any non-empty pattern. -/
def pyReplaceGo (pat repl : List Char) : Nat → List Char → List Char
  | 0, cs => cs
  | _ + 1, [] => []
  | fuel + 1, c :: cs =>
    if pat.isPrefixOf (c :: cs) then
      repl ++ pyReplaceGo pat repl fuel (List.drop pat.length (c :: cs))
    else
      c :: pyReplaceGo pat repl fuel cs

/-- Python str.replace(pat, repl), for non-empty patterns. -/
def pyReplace (pat repl cs : List Char) : List Char :=
  pyReplaceGo pat repl cs.length cs

/-- Python str.strip(): drop leading and trailing whitespace. -/
def pyStrip (cs : List Char) : List Char :=
  (((cs.dropWhile isPyWs).reverse.dropWhile isPyWs)).reverse

/-- The two fence markers removed from model replies
(src/main.py line 102). -/
def fenceJson : List Char := "```json".toList

/-- Bare triple-backtick fence marker. -/
def fence : List Char := "```".toList

/-- The backtick character. -/
def backtick : Char := '\x60'

/-- Fence-stripping applied to the model reply, from line 102:
text.replace(three-backticks-json, empty).replace(three-backticks,
empty).strip(). -/
def stripFences (cs : List Char) : List Char :=
  pyStrip (pyReplace fence [] (pyReplace fenceJson [] cs))

/-- The generic failure result {balti: Error, english: Translation Failed}
(line 107). -/
def translationFailed : Json :=
  Json.obj [("balti", Json.str "Error"), ("english", Json.str "Translation Failed")]

/-- Response handling, lines 102-103 plus the enclosing except: strip
fences, json.loads; a parse exception is caught by the outer handler and
becomes the generic failure result.  A reply that parses is returned
as-is: the code performs no field validation. -/
def handleResponse (reply : List Char) : Json :=
  match parseJson (stripFences reply) with
  | some v => v
  | none => translationFailed

/-- One custom-dictionary entry, a d in config['dictionary'] with keys
d['balti'] and d['english'] (line 72). -/
structure DictEntry where
  balti : String
  english : String
deriving DecidableEq

/-- Configuration snapshot as read by translate via config.get: tone and
context may be absent (the route handler can overwrite the config with an
arbitrary JSON document), in which case the f-string falls back to
"Casual" and "General". -/
structure Config where
  dictionary : List DictEntry
  tone : Option String
  context : Option String
  forbiddenWords : List String
deriving DecidableEq

/-- Rendering of one dictionary entry (line 72):
a dash, the Balti term, an arrow, the English term. -/
def dictLine (d : DictEntry) : String :=
  "- " ++ d.balti ++ " -> " ++ d.english

/-- The list built by the comprehension on line 72, one rendered line per
dictionary entry, in order. -/
def dictLines (ds : List DictEntry) : List String :=
  ds.map dictLine

/-- dict_str (line 72): the rendered lines joined by newlines. -/
def dictStr (ds : List DictEntry) : String :=
  String.intercalate "\n" (dictLines ds)

/-- forbidden_str (line 73): forbidden words joined by a comma and
space. -/
def forbiddenStr (ws : List String) : String :=
  String.intercalate ", " ws

/-- The part of the prompt f-string (lines 75-92) before dict_str: role
statement, then context, tone and blocked words with their fallbacks,
then the CUSTOM DICTIONARY header. -/
def promptHead (cfg : Config) : String :=
  "\n            You are an expert Balti-to-English translator.\n            \n            CONFIGURATION:\n            - Context: "
  ++ cfg.context.getD "General"
  ++ "\n            - Tone: "
  ++ cfg.tone.getD "Casual"
  ++ "\n            - Blocked Words: "
  ++ forbiddenStr cfg.forbiddenWords
  ++ "\n            \n            CUSTOM DICTIONARY:\n            "

/-- The part of the prompt f-string after dict_str: the task statement
and the two-string-field JSON response format instruction. -/
def promptTail : String :=
  "\n            \n            TASK:\n            1. Transcribe the Balti speech.\n            2. Translate it to English.\n            \n            RESPONSE FORMAT (JSON ONLY):\n            \x7b \"balti\": \"...\", \"english\": \"...\" \x7d\n            "

/-- The prompt f-string of lines 75-92, with dict_str, forbidden_str and
the config fields interpolated. -/
def buildPrompt (cfg : Config) : String :=
  promptHead cfg ++ dictStr cfg.dictionary ++ promptTail

/-- External steps translate can attempt, in the order the code issues
them: the temporary WAV write (line 67), the remote upload (line 69), the
model call with the built prompt (line 94), remote-blob deletion
(line 97), local temporary-file removal (line 98). -/
inductive Step where
  | writeWav
  | upload
  | modelCall (prompt : String)
  | deleteRemote
  | removeLocal
deriving DecidableEq

/-- Environment describing the outcomes of translate's external calls:
whether stream acquisition succeeds (used by the recorder), whether the
WAV write and the upload succeed, the model reply (none when
generate_content raises, some text when it returns), and whether the two
cleanup calls succeed. -/
structure Env where
  deviceOk : Bool
  writeOk : Bool
  uploadOk : Bool
  reply : Option (List Char)
  deleteOk : Bool
  removeOk : Bool
deriving DecidableEq

/-- The {balti: Error, english: API Key Missing} result (line 61). -/
def apiKeyMissing : Json :=
  Json.obj [("balti", Json.str "Error"), ("english", Json.str "API Key Missing")]

/-- GeminiService.__init__ (lines 48-57): the service holds a model
exactly when a non-empty key was supplied and genai.configure plus model
construction succeeded. -/
def initModel (apiKey : Option String) (configureOk : Bool) : Bool :=
  match apiKey with
  | none => false
  | some k => if k = "" then false else configureOk

/-- GeminiService.translate (lines 59-107).  Returns the result value
together with the trace of external steps attempted, in order.  The body
mirrors the source: the missing-model guard; then inside try: WAV write,
upload, prompt construction, model call; on a reply, cleanup in its own
try (remote delete first; local removal only if the delete did not raise;
outcomes swallowed); then fence-stripping and json.loads, whose failure
is caught by the outer except and becomes the generic failure result.
Any raise inside the try before cleanup lands in the outer except with no
cleanup attempted. -/
def translate (hasModel : Bool) (env : Env) (_audio : List Sample)
    (cfg : Config) : Json × List Step :=
  if hasModel then
    if env.writeOk then
      if env.uploadOk then
        let prompt := buildPrompt cfg
        match env.reply with
        | none =>
          (translationFailed, [Step.writeWav, Step.upload, Step.modelCall prompt])
        | some text =>
          let cleanup :=
            Step.deleteRemote :: (if env.deleteOk then [Step.removeLocal] else [])
          (handleResponse text,
            [Step.writeWav, Step.upload, Step.modelCall prompt] ++ cleanup)
      else (translationFailed, [Step.writeWav, Step.upload])
    else (translationFailed, [Step.writeWav])
  else (apiKeyMissing, [])

/-- AudioRecorder state (lines 109-114): the recording flag, the
accumulated frame buffers, and whether self.stream holds a stream
object. -/
structure RecState where
  recording : Bool
  audioData : List (List Sample)
  hasStream : Bool
deriving DecidableEq

/-- A fresh AudioRecorder (lines 110-114). -/
def recInit : RecState :=
  { recording := false, audioData := [], hasStream := false }

/-- AudioRecorder.start (lines 116-125): set recording, clear the
accumulated frames, then open the input stream; if the open raises, the
handler clears recording again (the stream attribute keeps its prior
value, since the assignment never executed). -/
def start (deviceOk : Bool) (s : RecState) : RecState :=
  if deviceOk then { recording := true, audioData := [], hasStream := true }
  else { recording := false, audioData := [], hasStream := s.hasStream }

/-- AudioRecorder.stop (lines 127-133): clear the recording flag and
return the concatenation of the accumulated frames (an empty array when
none).  The accumulated frames are NOT cleared — only start resets
them — and the stream attribute is left in place. -/
def stop (s : RecState) : RecState × List Sample :=
  ({ s with recording := false }, s.audioData.flatten)

/-- AudioRecorder._callback (lines 135-137): append the delivered frame
to the accumulated buffers, guarded by the recording flag. -/
def callbackStep (s : RecState) (frame : List Sample) : RecState :=
  if s.recording then { s with audioData := s.audioData ++ [frame] } else s

/-- A sequence of frame deliveries by the capture backend, in order. -/
def deliver (s : RecState) (frames : List (List Sample)) : RecState :=
  frames.foldl callbackStep s

/-- The {status: started} acknowledgement (line 168). -/
def startedAck : Json :=
  Json.obj [("status", Json.str "started")]

/-- The {balti: Error, english: No audio captured} result (line 173). -/
def noAudioErr : Json :=
  Json.obj [("balti", Json.str "Error"), ("english", Json.str "No audio captured")]

/-- Outcome of one /api/record request: the recorder state afterwards,
the JSON body returned (none when the handler falls through and returns
nothing), and the external steps attempted by a translate call. -/
structure RouterResult where
  state : RecState
  resp : Option Json
  effects : List Step

/-- handle_record (lines 161-176): on action start, recorder.start() and
the started acknowledgement unconditionally; on action stop,
recorder.stop(), then either the no-audio error (empty sample, translate
never called) or the translate result; any other action falls through
both branches and returns nothing. -/
def handleRecord (hasModel : Bool) (env : Env) (cfg : Config)
    (s : RecState) (action : Option String) : RouterResult :=
  if action = some "start" then
    { state := start env.deviceOk s, resp := some startedAck, effects := [] }
  else if action = some "stop" then
    let r := stop s
    if r.2.length = 0 then
      { state := r.1, resp := some noAudioErr, effects := [] }
    else
      let tr := translate hasModel env r.2 cfg
      { state := r.1, resp := some tr.1, effects := tr.2 }
  else { state := s, resp := none, effects := [] }

section RecorderTheorems

/-- While the recorder is recording, delivering a list of frames appends
them, in order, to the accumulated buffers and changes nothing else. -/
lemma deliver_recording (frames : List (List Sample)) :
    ∀ (acc : List (List Sample)) (hs : Bool),
      deliver { recording := true, audioData := acc, hasStream := hs } frames
        = { recording := true, audioData := acc ++ frames, hasStream := hs } := by
  induction frames with
  | nil => intro acc hs; simp [deliver]
  | cons f fs ih =>
    intro acc hs
    have step : callbackStep { recording := true, audioData := acc, hasStream := hs } f
        = { recording := true, audioData := acc ++ [f], hasStream := hs } := by
      simp [callbackStep]
    calc deliver { recording := true, audioData := acc, hasStream := hs } (f :: fs)
        = deliver (callbackStep { recording := true, audioData := acc, hasStream := hs } f) fs := rfl
      _ = deliver { recording := true, audioData := acc ++ [f], hasStream := hs } fs := by rw [step]
      _ = { recording := true, audioData := (acc ++ [f]) ++ fs, hasStream := hs } := ih _ _
      _ = { recording := true, audioData := acc ++ f :: fs, hasStream := hs } := by
          simp

/-- C6 (confirmed): for every sequence of frames delivered via the
capture callback while Recording, the AudioSample returned by stop is the
concatenation of the frames in delivery order, and its sample count is
the sum of the frame sizes. -/
theorem stop_returns_frames_in_order (s : RecState) (frames : List (List Sample)) :
    (stop (deliver (start true s) frames)).2 = frames.flatten
    ∧ (stop (deliver (start true s) frames)).2.length = (frames.map List.length).sum := by
  have hstart : start true s = { recording := true, audioData := [], hasStream := true } := rfl
  rw [hstart, deliver_recording frames [] true]
  constructor
  · simp [stop]
  · simp [stop, List.length_flatten]

/-- C4 (corrected) counterexample: a recorder that recorded the frame
[1, 2] and then stopped is Idle, yet a second stop returns the very same
non-empty sample [1, 2] again — not an empty AudioSample, because stop
never clears the accumulated frames. -/
theorem stop_idle_not_empty_cex :
    (stop (deliver (start true recInit) [[1, 2]])).1.recording = false
    ∧ (stop (stop (deliver (start true recInit) [[1, 2]])).1).2 = [1, 2]
    ∧ (stop (stop (deliver (start true recInit) [[1, 2]])).1).2 ≠ [] := by
  refine ⟨rfl, rfl, by decide⟩

/-- C4 (amended): stop always leaves the session Idle, and it is
idempotent on the state: a second stop returns the same state and the
same (possibly non-empty) finalized sample as the first, since the
accumulated frames are only reset by start.  The returned sample is empty
exactly when no frames are accumulated, as on a fresh recorder. -/
theorem stop_idempotent_same_sample (s : RecState) :
    (stop s).1.recording = false
    ∧ (stop (stop s).1).1 = (stop s).1
    ∧ (stop (stop s).1).2 = (stop s).2
    ∧ (stop recInit).2 = [] := by
  refine ⟨rfl, rfl, rfl, rfl⟩

/-- C5 (confirmed): when a stop request finalizes a zero-length
AudioSample, the handler returns the "No audio captured" error and the
translation model is never invoked (no external step is attempted). -/
theorem handleRecord_stop_empty_no_translate (hasModel : Bool) (env : Env)
    (cfg : Config) (s : RecState) (h : (stop s).2.length = 0) :
    handleRecord hasModel env cfg s (some "stop")
      = { state := (stop s).1, resp := some noAudioErr, effects := [] } := by
  simp [handleRecord, h]

/-- C5 witness: a stop request on a fresh recorder yields the
"No audio captured" error with no external step. -/
theorem handleRecord_stop_empty_no_translate_witness :
    handleRecord true
        { deviceOk := true, writeOk := true, uploadOk := true,
          reply := none, deleteOk := true, removeOk := true }
        { dictionary := [], tone := none, context := none, forbiddenWords := [] }
        recInit (some "stop")
      = { state := { recording := false, audioData := [], hasStream := false },
          resp := some noAudioErr, effects := [] } :=
  handleRecord_stop_empty_no_translate true
    { deviceOk := true, writeOk := true, uploadOk := true,
      reply := none, deleteOk := true, removeOk := true }
    { dictionary := [], tone := none, context := none, forbiddenWords := [] }
    recInit rfl

/-- C10 (confirmed): a record request whose action is neither "start" nor
"stop" (a missing action included) falls through both branches: the
recorder state is untouched and the handler produces no response at all. -/
theorem handleRecord_unknown_action_no_response (hasModel : Bool) (env : Env)
    (cfg : Config) (s : RecState) (action : Option String)
    (h1 : action ≠ some "start") (h2 : action ≠ some "stop") :
    handleRecord hasModel env cfg s action
      = { state := s, resp := none, effects := [] } := by
  simp [handleRecord, h1, h2]

/-- C10 witness: a request with no action field at all gets no response. -/
theorem handleRecord_unknown_action_no_response_witness :
    handleRecord true
        { deviceOk := true, writeOk := true, uploadOk := true,
          reply := none, deleteOk := true, removeOk := true }
        { dictionary := [], tone := none, context := none, forbiddenWords := [] }
        recInit none
      = { state := recInit, resp := none, effects := [] } :=
  handleRecord_unknown_action_no_response true
    { deviceOk := true, writeOk := true, uploadOk := true,
      reply := none, deleteOk := true, removeOk := true }
    { dictionary := [], tone := none, context := none, forbiddenWords := [] }
    recInit none (by decide) (by decide)

/-- C3 (corrected) counterexample: when opening the input stream raises
during start, the session does end the call Idle, but the router-level
response IS the plain started acknowledgement — the failure is only
printed, never reported to the caller. -/
theorem start_failure_still_acked_cex :
    (handleRecord true
        { deviceOk := false, writeOk := true, uploadOk := true,
          reply := none, deleteOk := true, removeOk := true }
        { dictionary := [], tone := none, context := none, forbiddenWords := [] }
        recInit (some "start")).resp = some startedAck
    ∧ (handleRecord true
        { deviceOk := false, writeOk := true, uploadOk := true,
          reply := none, deleteOk := true, removeOk := true }
        { dictionary := [], tone := none, context := none, forbiddenWords := [] }
        recInit (some "start")).state.recording = false := ⟨rfl, rfl⟩

/-- C3 (amended): if opening the hardware input stream raises during
start, the session ends the call Idle with its frame buffer cleared, but
the failure is only logged: the router still answers with the plain
started acknowledgement, and no external step is attempted. -/
theorem start_failure_idle_but_acked (hasModel : Bool) (env : Env)
    (cfg : Config) (s : RecState) (h : env.deviceOk = false) :
    handleRecord hasModel env cfg s (some "start")
      = { state := { recording := false, audioData := [], hasStream := s.hasStream },
          resp := some startedAck, effects := [] } := by
  simp [handleRecord, start, h]

/-- C3 witness: concrete failed start on a fresh recorder. -/
theorem start_failure_idle_but_acked_witness :
    handleRecord true
        { deviceOk := false, writeOk := true, uploadOk := true,
          reply := none, deleteOk := true, removeOk := true }
        { dictionary := [], tone := none, context := none, forbiddenWords := [] }
        recInit (some "start")
      = { state := { recording := false, audioData := [], hasStream := false },
          resp := some startedAck, effects := [] } :=
  start_failure_idle_but_acked true
    { deviceOk := false, writeOk := true, uploadOk := true,
      reply := none, deleteOk := true, removeOk := true }
    { dictionary := [], tone := none, context := none, forbiddenWords := [] }
    recInit rfl

end RecorderTheorems

section TranslateTheorems

/-- C8 (confirmed): with no model credential — key absent, key empty, or
the service otherwise left without a model — translate returns the
API Key Missing result immediately, attempting no file write, no upload
and no network step. -/
theorem translate_no_credential (env : Env) (a : List Sample) (cfg : Config)
    (configureOk : Bool) :
    translate (initModel none configureOk) env a cfg = (apiKeyMissing, [])
    ∧ translate (initModel (some "") configureOk) env a cfg = (apiKeyMissing, [])
    ∧ translate false env a cfg = (apiKeyMissing, []) := by
  refine ⟨rfl, ?_, rfl⟩
  simp [initModel, translate]

/-- C1 (corrected) counterexample: the reply is valid JSON but omits the
required "english" field, yet translate returns the parsed object as-is
rather than the generic Translation Failed result — the code performs no
field validation after json.loads. -/
theorem translate_missing_field_not_error_cex :
    parseJson (stripFences ("\x7b \"balti\": \"x\" \x7d".toList))
        = some (Json.obj [("balti", Json.str "x")])
    ∧ (translate true
        { deviceOk := true, writeOk := true, uploadOk := true,
          reply := some ("\x7b \"balti\": \"x\" \x7d".toList),
          deleteOk := true, removeOk := true }
        [0] { dictionary := [], tone := none, context := none, forbiddenWords := [] }).1
        = Json.obj [("balti", Json.str "x")]
    ∧ Json.obj [("balti", Json.str "x")] ≠ translationFailed := by
  refine ⟨rfl, rfl, ?_⟩
  simp [translationFailed]

/-- C1 (amended): a model reply whose fence-stripped text fails to parse
as JSON yields the generic Translation Failed result and no exception
escapes; but any reply that parses as JSON — fields present or not, an
object or not — is returned to the caller as-is. -/
theorem translate_reply_parse_or_passthrough (env : Env) (a : List Sample)
    (cfg : Config) (t : List Char) (hr : env.reply = some t)
    (hw : env.writeOk = true) (hu : env.uploadOk = true) :
    (parseJson (stripFences t) = none →
      (translate true env a cfg).1 = translationFailed)
    ∧ ∀ v, parseJson (stripFences t) = some v →
      (translate true env a cfg).1 = v := by
  constructor
  · intro hp; simp [translate, hw, hu, hr, handleResponse, hp]
  · intro v hp; simp [translate, hw, hu, hr, handleResponse, hp]

/-- C1 witness: a garbage reply maps to the Translation Failed result. -/
theorem translate_reply_parse_or_passthrough_witness :
    (translate true
        { deviceOk := true, writeOk := true, uploadOk := true,
          reply := some ("oops".toList), deleteOk := true, removeOk := true }
        [0] { dictionary := [], tone := none, context := none, forbiddenWords := [] }).1
      = translationFailed :=
  (translate_reply_parse_or_passthrough
    { deviceOk := true, writeOk := true, uploadOk := true,
      reply := some ("oops".toList), deleteOk := true, removeOk := true }
    [0] { dictionary := [], tone := none, context := none, forbiddenWords := [] }
    ("oops".toList) rfl rfl rfl).1 rfl

/-- C2 (corrected) counterexample: when the model call raises, translate
returns the Translation Failed result WITHOUT attempting either cleanup
step — neither the remote-blob deletion nor the local temporary-file
removal appears in the attempted-step trace, because the cleanup block
sits after the model call inside the same try. -/
theorem cleanup_skipped_on_model_raise_cex :
    (translate true
        { deviceOk := true, writeOk := true, uploadOk := true,
          reply := none, deleteOk := true, removeOk := true }
        [0] { dictionary := [], tone := none, context := none, forbiddenWords := [] }).1
        = translationFailed
    ∧ Step.deleteRemote ∉ (translate true
        { deviceOk := true, writeOk := true, uploadOk := true,
          reply := none, deleteOk := true, removeOk := true }
        [0] { dictionary := [], tone := none, context := none, forbiddenWords := [] }).2
    ∧ Step.removeLocal ∉ (translate true
        { deviceOk := true, writeOk := true, uploadOk := true,
          reply := none, deleteOk := true, removeOk := true }
        [0] { dictionary := [], tone := none, context := none, forbiddenWords := [] }).2 := by
  refine ⟨rfl, ?_, ?_⟩ <;> simp [translate]

/-- C2 (amended): only when the model call returns a reply is cleanup
attempted — the remote delete always, the local removal whenever the
delete did not raise — and the outcome of the cleanup calls never changes
the returned result. -/
theorem cleanup_only_after_model_reply (env : Env) (a : List Sample)
    (cfg : Config) (t : List Char) (hr : env.reply = some t)
    (hw : env.writeOk = true) (hu : env.uploadOk = true) :
    Step.deleteRemote ∈ (translate true env a cfg).2
    ∧ (env.deleteOk = true → Step.removeLocal ∈ (translate true env a cfg).2)
    ∧ ∀ d r, (translate true { env with deleteOk := d, removeOk := r } a cfg).1
        = (translate true env a cfg).1 := by
  refine ⟨?_, ?_, ?_⟩
  · simp [translate, hw, hu, hr]
  · intro hd; simp [translate, hw, hu, hr, hd]
  · intro d r; simp [translate, hw, hu, hr]

/-- C2 witness: with a replying model, cleanup is attempted and disabling
both cleanup outcomes leaves the result unchanged. -/
theorem cleanup_only_after_model_reply_witness :
    Step.deleteRemote ∈ (translate true
        { deviceOk := true, writeOk := true, uploadOk := true,
          reply := some ("oops".toList), deleteOk := true, removeOk := true }
        [0] { dictionary := [], tone := none, context := none, forbiddenWords := [] }).2
    ∧ (translate true
        { deviceOk := true, writeOk := true, uploadOk := true,
          reply := some ("oops".toList), deleteOk := false, removeOk := false }
        [0] { dictionary := [], tone := none, context := none, forbiddenWords := [] }).1
      = (translate true
        { deviceOk := true, writeOk := true, uploadOk := true,
          reply := some ("oops".toList), deleteOk := true, removeOk := true }
        [0] { dictionary := [], tone := none, context := none, forbiddenWords := [] }).1 := by
  have h := cleanup_only_after_model_reply
    { deviceOk := true, writeOk := true, uploadOk := true,
      reply := some ("oops".toList), deleteOk := true, removeOk := true }
    [0] { dictionary := [], tone := none, context := none, forbiddenWords := [] }
    ("oops".toList) rfl rfl rfl
  exact ⟨h.1, h.2.2 false false⟩

/-- C7 (confirmed): for every configuration the dictionary section of the
built instruction renders no line when the dictionary is empty, and
otherwise exactly one line per entry in original order, the i-th line
being the i-th entry formatted as dash source arrow target; the built
prompt contains that section verbatim between the fixed prefix and
suffix. -/
theorem prompt_dictionary_lines (cfg : Config) :
    (cfg.dictionary = [] → dictStr cfg.dictionary = "")
    ∧ (dictLines cfg.dictionary).length = cfg.dictionary.length
    ∧ (∀ i : Nat, (dictLines cfg.dictionary)[i]? = (cfg.dictionary[i]?).map dictLine)
    ∧ ∃ pre post, buildPrompt cfg = pre ++ dictStr cfg.dictionary ++ post := by
  refine ⟨?_, ?_, ?_, ?_⟩
  · intro h; rw [h]; rfl
  · simp [dictLines]
  · intro i; simp [dictLines, List.getElem?_map]
  · exact ⟨promptHead cfg, promptTail, by simp [buildPrompt, String.append_assoc]⟩

/-- C7 witness: the empty dictionary renders nothing; a one-entry
dictionary renders exactly its formatted line. -/
theorem prompt_dictionary_lines_witness :
    dictStr [] = ""
    ∧ (dictLines [{ balti := "chu", english := "water" }])[0]?
        = some "- chu -> water" := by
  refine ⟨(prompt_dictionary_lines
    { dictionary := [], tone := none, context := none, forbiddenWords := [] }).1 rfl, ?_⟩
  have h := (prompt_dictionary_lines
    { dictionary := [{ balti := "chu", english := "water" }], tone := none,
      context := none, forbiddenWords := [] }).2.2.1 0
  simpa [dictLine] using h

end TranslateTheorems

section FenceTheorems

/-- A list is a Boolean prefix of itself followed by anything. -/
lemma isPrefixOf_append_self (l t : List Char) : l.isPrefixOf (l ++ t) = true := by
  induction l with
  | nil => simp [List.isPrefixOf]
  | cons a as ih => simp [List.isPrefixOf, ih]

/-- A pattern starting with p is not a Boolean prefix of a list starting
with a different character. -/
lemma isPrefixOf_cons_of_ne (p x : Char) (ps l : List Char) (h : x ≠ p) :
    (p :: ps).isPrefixOf (x :: l) = false := by
  have hpx : (p == x) = false := beq_eq_false_iff_ne.mpr fun e => h e.symm
  simp [List.isPrefixOf, hpx]

/-- Scanning for a pattern that starts with p walks untouched over any
prefix free of p. -/
lemma pyReplaceGo_skip (pat repl : List Char) (p : Char) (ps : List Char)
    (hpat : pat = p :: ps) (xs : List Char) :
    ∀ (n : Nat) (ys : List Char), (∀ c ∈ xs, c ≠ p) →
      pyReplaceGo pat repl (xs.length + n) (xs ++ ys)
        = xs ++ pyReplaceGo pat repl n ys := by
  subst hpat
  induction xs with
  | nil => intro n ys _; simp
  | cons x xs ih =>
    intro n ys h
    have hx : x ≠ p := h x (List.mem_cons_self x xs)
    have hlen : (x :: xs).length + n = (xs.length + n) + 1 := by
      simp [List.length_cons]; omega
    rw [hlen]
    show pyReplaceGo (p :: ps) repl ((xs.length + n) + 1) (x :: (xs ++ ys)) = _
    simp only [pyReplaceGo, isPrefixOf_cons_of_ne p x ps (xs ++ ys) hx,
      Bool.false_eq_true, if_false]
    rw [ih n ys fun c hc => h c (List.mem_cons_of_mem x hc)]
    rfl

/-- Scanning at an occurrence of the pattern emits the replacement and
resumes after the matched segment. -/
lemma pyReplaceGo_match (pat repl ys : List Char) (n : Nat) (p : Char)
    (ps : List Char) (hpat : pat = p :: ps) :
    pyReplaceGo pat repl (n + 1) (pat ++ ys) = repl ++ pyReplaceGo pat repl n ys := by
  subst hpat
  have hpre : (p :: ps).isPrefixOf (p :: (ps ++ ys)) = true := by
    have h := isPrefixOf_append_self (p :: ps) ys
    simp only [List.cons_append] at h
    exact h
  have hdrop : List.drop (p :: ps).length (p :: (ps ++ ys)) = ys := by
    have h := List.drop_left (p :: ps) ys
    simp only [List.cons_append] at h
    exact h
  show pyReplaceGo (p :: ps) repl (n + 1) (p :: (ps ++ ys)) = _
  simp only [pyReplaceGo, hpre, if_true, hdrop]

/-- Python strip of a string wrapped in single newlines, when the inner
text has no leading or trailing whitespace, recovers the inner text. -/
lemma pyStrip_newline_wrap (s : List Char)
    (h1 : s.dropWhile isPyWs = s)
    (h2 : s.reverse.dropWhile isPyWs = s.reverse) :
    pyStrip ('\n' :: (s ++ ['\n'])) = s := by
  cases s with
  | nil => rfl
  | cons a as =>
    have ha : isPyWs a = false := by
      cases hq : isPyWs a with
      | false => rfl
      | true =>
        exfalso
        have hdrops : List.dropWhile isPyWs (a :: as) = a :: as := h1
        rw [List.dropWhile_cons, hq, if_pos rfl] at hdrops
        have hle : (List.dropWhile isPyWs as).length ≤ as.length :=
          (List.dropWhile_sublist isPyWs).length_le
        rw [hdrops] at hle
        simp at hle
    have d1 : List.dropWhile isPyWs ('\n' :: ((a :: as) ++ ['\n']))
        = (a :: as) ++ ['\n'] := by
      rw [List.dropWhile_cons]
      have hnl : isPyWs '\n' = true := by decide
      rw [hnl, if_pos rfl]
      show List.dropWhile isPyWs (a :: (as ++ ['\n'])) = _
      rw [List.dropWhile_cons, ha]
      simp
    have d2 : ((a :: as) ++ ['\n']).reverse = '\n' :: (a :: as).reverse := by
      simp
    unfold pyStrip
    rw [d1, d2, List.dropWhile_cons]
    have hnl : isPyWs '\n' = true := by decide
    rw [hnl, if_pos rfl, h2, List.reverse_reverse]

/-- Fence-stripping a reply that wraps fence-free text in the standard
markdown JSON code fence recovers exactly the inner text, stripped. -/
lemma stripFences_wrap (s : List Char) (hnb : ∀ c ∈ s, c ≠ backtick)
    (h1 : s.dropWhile isPyWs = s)
    (h2 : s.reverse.dropWhile isPyWs = s.reverse) :
    stripFences (fenceJson ++ '\n' :: (s ++ '\n' :: fence)) = s := by
  have hxs : ∀ c ∈ ('\n' :: (s ++ ['\n'])), c ≠ backtick := by
    intro c hc
    rcases List.mem_cons.mp hc with h | h
    · subst h; decide
    · rcases List.mem_append.mp h with h | h
      · exact hnb c h
      · rw [List.mem_singleton.mp h]; decide
  have hrest : '\n' :: (s ++ '\n' :: fence) = ('\n' :: (s ++ ['\n'])) ++ fence := by
    simp
  have hlen1 : (fenceJson ++ '\n' :: (s ++ '\n' :: fence)).length
      = (('\n' :: (s ++ ['\n'])).length + 9) + 1 := by
    simp [fenceJson, fence]
  have step1 : pyReplace fenceJson [] (fenceJson ++ '\n' :: (s ++ '\n' :: fence))
      = '\n' :: (s ++ '\n' :: fence) := by
    unfold pyReplace
    rw [hlen1, pyReplaceGo_match fenceJson [] _ _ backtick ("``json".toList) rfl]
    rw [hrest, pyReplaceGo_skip fenceJson [] backtick ("``json".toList) rfl _ 9 fence hxs]
    rw [show pyReplaceGo fenceJson [] 9 fence = fence from rfl]
    simp
  have hlen2 : ('\n' :: (s ++ '\n' :: fence)).length
      = ('\n' :: (s ++ ['\n'])).length + 3 := by
    simp [fence]
  have step2 : pyReplace fence [] ('\n' :: (s ++ '\n' :: fence))
      = '\n' :: (s ++ ['\n']) := by
    unfold pyReplace
    rw [hlen2, hrest, pyReplaceGo_skip fence [] backtick ("``".toList) rfl _ 3 fence hxs]
    rw [show pyReplaceGo fence [] 3 fence = ([] : List Char) from rfl]
    simp
  unfold stripFences
  rw [step1, step2]
  exact pyStrip_newline_wrap s h1 h2

/-- C9 (corrected) counterexample: a reply wrapping valid two-string-field
JSON in code fences, whose "balti" value itself contains a triple
backtick.  The fence-strip removes every marker occurrence, so translate
returns an object whose value lost the backticks — not the result of
parsing the unwrapped JSON directly. -/
theorem translate_fenced_reply_cex :
    parseJson ("\x7b\"balti\": \"``` x\", \"english\": \"y\"\x7d".toList)
      = some (Json.obj [("balti", Json.str "``` x"), ("english", Json.str "y")])
    ∧ (translate true
        { deviceOk := true, writeOk := true, uploadOk := true,
          reply := some ("```json\n\x7b\"balti\": \"``` x\", \"english\": \"y\"\x7d\n```".toList),
          deleteOk := true, removeOk := true }
        [0] { dictionary := [], tone := none, context := none, forbiddenWords := [] }).1
      = Json.obj [("balti", Json.str " x"), ("english", Json.str "y")]
    ∧ Json.obj [("balti", Json.str " x"), ("english", Json.str "y")]
      ≠ Json.obj [("balti", Json.str "``` x"), ("english", Json.str "y")] := by
  refine ⟨rfl, rfl, ?_⟩
  simp

/-- C9 (amended): a model reply wrapping valid two-string-field JSON in
the markdown JSON code fence yields the result of parsing the unwrapped
text directly, provided the inner text is trimmed and contains no
backtick character (the strip removes every fence-marker occurrence, not
only the outer wrapping). -/
theorem translate_fenced_reply_equals_unwrapped (env : Env) (a : List Sample)
    (cfg : Config) (s : List Char) (b e : String)
    (hr : env.reply = some (fenceJson ++ '\n' :: (s ++ '\n' :: fence)))
    (hw : env.writeOk = true) (hu : env.uploadOk = true)
    (hnb : ∀ c ∈ s, c ≠ backtick)
    (h1 : s.dropWhile isPyWs = s)
    (h2 : s.reverse.dropWhile isPyWs = s.reverse)
    (hp : parseJson s
      = some (Json.obj [("balti", Json.str b), ("english", Json.str e)])) :
    (translate true env a cfg).1
      = Json.obj [("balti", Json.str b), ("english", Json.str e)] := by
  have hs := stripFences_wrap s hnb h1 h2
  simp [translate, hw, hu, hr, handleResponse, hs, hp]

/-- C9 witness: a concrete fenced two-field reply parses to the same
object as its unwrapped JSON. -/
theorem translate_fenced_reply_equals_unwrapped_witness :
    (translate true
        { deviceOk := true, writeOk := true, uploadOk := true,
          reply := some (fenceJson ++ '\n' ::
            ("\x7b\"balti\": \"kho\", \"english\": \"this\"\x7d".toList ++ '\n' :: fence)),
          deleteOk := true, removeOk := true }
        [0] { dictionary := [], tone := none, context := none, forbiddenWords := [] }).1
      = Json.obj [("balti", Json.str "kho"), ("english", Json.str "this")] :=
  translate_fenced_reply_equals_unwrapped
    { deviceOk := true, writeOk := true, uploadOk := true,
      reply := some (fenceJson ++ '\n' ::
        ("\x7b\"balti\": \"kho\", \"english\": \"this\"\x7d".toList ++ '\n' :: fence)),
      deleteOk := true, removeOk := true }
    [0] { dictionary := [], tone := none, context := none, forbiddenWords := [] }
    ("\x7b\"balti\": \"kho\", \"english\": \"this\"\x7d".toList) "kho" "this"
    rfl rfl rfl (by decide) rfl rfl rfl

end FenceTheorems

end BaltiAI

/- Concrete behavior checks for the executable embedding. -/
example : BaltiAI.parseJson "\x7b\"balti\": \"kho\", \"english\": \"this\"\x7d".toList =
    some (BaltiAI.Json.obj [("balti", BaltiAI.Json.str "kho"), ("english", BaltiAI.Json.str "this")]) := rfl
example : BaltiAI.parseJson "\x7b \"balti\": \"x\" \x7d".toList =
    some (BaltiAI.Json.obj [("balti", BaltiAI.Json.str "x")]) := rfl
example : BaltiAI.parseJson "oops".toList = none := rfl
example : BaltiAI.parseJson "[1, 2, -3]".toList =
    some (BaltiAI.Json.arr [BaltiAI.Json.num 1, BaltiAI.Json.num 2, BaltiAI.Json.num (-3)]) := rfl
example : BaltiAI.parseJson "\x7b\"a\": true, \"a\": null\x7d".toList =
    some (BaltiAI.Json.obj [("a", BaltiAI.Json.null)]) := rfl
example : String.mk (BaltiAI.stripFences ("```json\n\x7b\"balti\": \"``` x\", \"english\": \"y\"\x7d\n```".toList)) =
    "\x7b\"balti\": \" x\", \"english\": \"y\"\x7d" := rfl
example : BaltiAI.parseJson (BaltiAI.stripFences ("```json\n\x7b\"balti\": \"``` x\", \"english\": \"y\"\x7d\n```".toList)) =
    some (BaltiAI.Json.obj [("balti", BaltiAI.Json.str " x"), ("english", BaltiAI.Json.str "y")]) := rfl
example : String.mk (BaltiAI.pyStrip "  hi there\n".toList) = "hi there" := rfl
